import Mathlib

/-!
# Verification of the banking transaction microservice core

Shallow embedding of the transaction-processing core of the
`transaction-service` (Node.js/PostgreSQL) and proofs about it.

The embedding translates:
* `src/models/Transaction.js`, `src/models/AccountProjection.js`,
  `src/models/IdempotencyKey.js` (data model and validation),
* `src/repositories/TransactionRepository.js`,
  `src/repositories/AccountProjectionRepository.js`,
  `src/repositories/IdempotencyKeyRepository.js` (store operations),
* `src/database/schema.sql` (the `update_account_balance` trigger and the
  table constraints),
* `src/services/TransactionService.js` (deposit, withdrawal, transfer),
* `src/utils/referenceGenerator.js`.

Decimal amounts (DECIMAL(15,2)) are represented as integers in minor units;
JavaScript dates are represented as natural-number timestamps.  Environmental
inputs of the JavaScript code (the current clock, `Math.random()`, the
generated reference) are passed as explicit parameters.
-/

namespace Banking

/-- Decidable equality of `Except` results, for evaluating the embedding on
concrete inputs. -/
instance {ε α : Type} [DecidableEq ε] [DecidableEq α] :
    DecidableEq (Except ε α) := fun x y =>
  match x, y with
  | .ok a, .ok b =>
      if h : a = b then isTrue (by rw [h]) else
        isFalse (by intro hc; cases hc; exact h rfl)
  | .error a, .error b =>
      if h : a = b then isTrue (by rw [h]) else
        isFalse (by intro hc; cases hc; exact h rfl)
  | .ok _, .error _ => isFalse (by intro hc; cases hc)
  | .error _, .ok _ => isFalse (by intro hc; cases hc)

/-- `account_type` enum from schema.sql / AccountProjection.js. -/
inductive AccountType
  | SAVINGS
  | CURRENT
  | SALARY
deriving DecidableEq, Repr

/-- `account_status` enum from schema.sql / AccountProjection.js. -/
inductive AccountStatus
  | ACTIVE
  | FROZEN
  | CLOSED
deriving DecidableEq, Repr

/-- `transaction_type` enum from schema.sql / Transaction.js. -/
inductive TxnType
  | DEPOSIT
  | WITHDRAWAL
  | TRANSFER_IN
  | TRANSFER_OUT
deriving DecidableEq, Repr

/-- A row of `account_projections` (AccountProjection model). -/
structure AccountProjection where
  account_id : Nat
  customer_id : Nat
  account_number : String
  account_type : AccountType
  current_balance : Int
  status : AccountStatus
deriving DecidableEq, Repr

/-- A row of `transactions` (Transaction model): one ledger entry. -/
structure Txn where
  txn_id : Nat
  account_id : Nat
  amount : Int
  txn_type : TxnType
  counterparty : Option String
  reference : String
  description : Option String
  balance_after : Option Int
deriving DecidableEq, Repr

/-- The data handed to `TransactionRepository.create` before the row exists. -/
structure TxnData where
  account_id : Nat
  amount : Int
  txn_type : TxnType
  counterparty : Option String
  reference : String
  description : Option String
deriving DecidableEq, Repr

/-- `AccountProjection.isActive`. -/
def isActive (a : AccountProjection) : Bool :=
  a.status = AccountStatus.ACTIVE

/-- `AccountProjection.allowsOverdraft`: only CURRENT accounts. -/
def allowsOverdraft (a : AccountProjection) : Bool :=
  a.account_type = AccountType.CURRENT

/-- Result object of `AccountProjection.canDebit` / `canCredit`:
`{allowed: false, reason}` or `{allowed: true, newBalance}`. -/
inductive BalanceCheck
  | denied (reason : String)
  | allowed (newBalance : Int)
deriving DecidableEq, Repr

/-- `AccountProjection.canDebit(amount)`. -/
def canDebit (a : AccountProjection) (amount : Int) : BalanceCheck :=
  if ¬ isActive a then
    .denied "Account is not active"
  else
    let newBalance := a.current_balance - amount
    if newBalance < 0 ∧ ¬ allowsOverdraft a then
      .denied "Insufficient balance - no overdraft allowed for this account type"
    else
      .allowed newBalance

/-- `AccountProjection.canCredit(amount)`. -/
def canCredit (a : AccountProjection) (amount : Int) : BalanceCheck :=
  if ¬ isActive a then
    .denied "Account is not active"
  else
    .allowed (a.current_balance + amount)

/-- One character of the `[A-Z0-9]` class of the reference regex. -/
def isUpperAlnum (c : Char) : Bool :=
  c.isUpper || c.isDigit

/-- The anchored regex `^REF[0-9]{8}-[A-Z0-9]{6}$` used both by
`referenceGenerator.isValidReference` and by `Transaction.validate`
(and by the `valid_reference` CHECK constraint in schema.sql). -/
def refFormat : List Char → Bool
  | 'R' :: 'E' :: 'F' :: rest =>
      decide ((rest.take 8).length = 8) && (rest.take 8).all Char.isDigit &&
      (match rest.drop 8 with
       | '-' :: tl => decide (tl.length = 6) && tl.all isUpperAlnum
       | _ => false)
  | _ => false

/-- `isValidReference` from referenceGenerator.js. -/
def isValidReference (s : String) : Bool :=
  refFormat s.data

/-- `errors.join(', ')` of JavaScript. -/
def joinErrors : List String → String
  | [] => ""
  | [e] => e
  | e :: rest => e ++ ", " ++ joinErrors rest

/-- The error list produced by `Transaction.validate` on the data of a row
about to be inserted (account_id truthy, positive amount, known type,
reference matching the anchored regex).  The enum type is always one of the
four valid strings, so that check never fails in the embedding. -/
def txnDataValidateErrors (d : TxnData) : List String :=
  (if d.account_id = 0 then ["Valid account_id is required"] else []) ++
  (if d.amount ≤ 0 then ["Amount must be positive"] else []) ++
  (if isValidReference d.reference then [] else
    ["Reference must follow pattern REF[YYYYMMDD]-[6CHARS]"])

/-- The result object built by `TransactionService.processTransfer` and
stored verbatim into `idempotency_keys.response_body`. -/
structure TransferResult where
  success : Bool
  transfer_reference : String
  debit_transaction : Txn
  credit_transaction : Txn
  from_account_new_balance : Int
  to_account_new_balance : Int
deriving DecidableEq, Repr

/-- Data of a transfer request (`transferData`). -/
structure TransferData where
  from_account_id : Nat
  to_account_id : Nat
  amount : Int
  description : Option String
deriving DecidableEq, Repr

/-- A row of `idempotency_keys` (IdempotencyKey model).  `response_body`
holds the stored `TransferResult` (JSON in the source). -/
structure IdemRecord where
  key : String
  txn_id : Option Nat
  request_body : Option TransferData
  response_body : Option TransferResult
  expires_at : Nat
deriving DecidableEq, Repr

/-- The visible database state: the three tables owned by the service,
the BIGSERIAL counter for `txn_id`, and the current clock (`new Date()`). -/
structure St where
  accounts : List AccountProjection
  ledger : List Txn
  idem : List IdemRecord
  nextTxnId : Nat
  now : Nat
deriving DecidableEq, Repr

/-- `SELECT * FROM account_projections WHERE account_id = $1`
(`AccountProjectionRepository.findById`). -/
def findAccount (accounts : List AccountProjection) (aid : Nat) :
    Option AccountProjection :=
  accounts.find? (fun a => a.account_id = aid)

/-- The `UPDATE account_projections SET current_balance = current_balance
plus-or-minus NEW.amount WHERE account_id = NEW.account_id` statement of the
`update_account_balance` trigger in schema.sql, with the signed delta. -/
def applyTriggerUpdate (accounts : List AccountProjection) (aid : Nat)
    (delta : Int) : List AccountProjection :=
  accounts.map fun a =>
    if a.account_id = aid then
      { a with current_balance := a.current_balance + delta }
    else a

/-- The sign the `update_account_balance` trigger gives an amount:
DEPOSIT and TRANSFER_IN are added, WITHDRAWAL and TRANSFER_OUT subtracted. -/
def signedAmount (ty : TxnType) (amount : Int) : Int :=
  match ty with
  | .DEPOSIT => amount
  | .TRANSFER_IN => amount
  | .WITHDRAWAL => -amount
  | .TRANSFER_OUT => -amount

/-- The signed value of a ledger entry. -/
def signedAmt (t : Txn) : Int :=
  signedAmount t.txn_type t.amount

/-- One `INSERT INTO transactions ...` as executed through
`TransactionRepository.create` (or one iteration of `createMultiple`):
`Transaction.validate` first, then the unique constraint on `reference`
(surfaced as the 23505 handler's message), the foreign key on `account_id`,
and the `update_account_balance` BEFORE INSERT trigger, which shifts the
account balance by the signed amount and snapshots it into `balance_after`. -/
def insertTxn (st : St) (d : TxnData) : Except String (Txn × St) :=
  let errs := txnDataValidateErrors d
  if errs ≠ [] then
    .error ("Validation failed: " ++ joinErrors errs)
  else if st.ledger.any (fun t => t.reference = d.reference) then
    .error "Transaction reference already exists"
  else
    match findAccount st.accounts d.account_id with
    | none => .error "insert into transactions violates foreign key constraint"
    | some a =>
      let delta := signedAmount d.txn_type d.amount
      let t : Txn :=
        { txn_id := st.nextTxnId
          account_id := d.account_id
          amount := d.amount
          txn_type := d.txn_type
          counterparty := d.counterparty
          reference := d.reference
          description := d.description
          balance_after := some (a.current_balance + delta) }
      .ok (t, { st with
                  accounts := applyTriggerUpdate st.accounts d.account_id delta
                  ledger := st.ledger ++ [t]
                  nextTxnId := st.nextTxnId + 1 })

/-- `SELECT * FROM idempotency_keys WHERE key = $1`
(`IdempotencyKeyRepository.findByKey`). -/
def findKey (idem : List IdemRecord) (k : String) : Option IdemRecord :=
  idem.find? (fun r => r.key = k)

/-- The status object returned by `IdempotencyKeyRepository.checkKey`. -/
structure KeyStatus where
  existsFlag : Bool
  expired : Bool
  processed : Bool
  response : Option TransferResult
deriving DecidableEq, Repr

/-- `IdempotencyKeyRepository.checkKey(key)`: `expired` is `now > expires_at`,
`processed` is `txn_id !== null`, `response` is the parsed `response_body`. -/
def checkKey (st : St) (k : String) : KeyStatus :=
  match findKey st.idem k with
  | none => { existsFlag := false, expired := false, processed := false, response := none }
  | some row =>
      { existsFlag := true
        expired := decide (st.now > row.expires_at)
        processed := row.txn_id.isSome
        response := row.response_body }

/-- `IdempotencyKey.validate`: non-empty key of at most 255 characters. -/
def idemValidateErrors (k : String) : List String :=
  (if k.length = 0 then ["Idempotency key is required"] else []) ++
  (if k.length > 255 then ["Idempotency key must be less than 255 characters"] else [])

/-- `IdempotencyKeyRepository.create`: validate, apply the default 24h expiry
(`IdempotencyKey.createExpiryDate`), insert, and map a unique-constraint
violation to its 23505 message. -/
def createIdemKey (st : St) (k : String) (body : TransferData) :
    Except String St :=
  let errs := idemValidateErrors k
  if errs ≠ [] then
    .error ("Validation failed: " ++ joinErrors errs)
  else if (findKey st.idem k).isSome then
    .error "Idempotency key already exists"
  else
    .ok { st with
            idem := st.idem ++
              [{ key := k, txn_id := none, request_body := some body
                 response_body := none, expires_at := st.now + 86400 }] }

/-- `IdempotencyKeyRepository.updateWithResult(key, txnId, responseBody)`. -/
def updateWithResult (st : St) (k : String) (txnId : Nat)
    (result : TransferResult) : Except String St :=
  if (findKey st.idem k).isNone then
    .error "Idempotency key not found"
  else
    .ok { st with
            idem := st.idem.map fun r =>
              if r.key = k then
                { r with txn_id := some txnId, response_body := some result }
              else r }

/-- `IdempotencyKeyRepository.delete(key)`. -/
def deleteIdemKey (st : St) (k : String) : St :=
  { st with idem := st.idem.filter fun r => ¬ (r.key = k) }

/-- `AccountProjectionRepository.lockForUpdate`: `SELECT ... FOR UPDATE`
throws `Account projection not found` on an empty result and otherwise
returns the (never-null) row.  The success type is `Option` because the
caller in `TransactionService.processTransfer` null-checks the value. -/
def lockForUpdate (st : St) (aid : Nat) :
    Except String (Option AccountProjection) :=
  match findAccount st.accounts aid with
  | none => .error "Account projection not found"
  | some a => .ok (some a)

/-- The result object of `processDeposit` / `processWithdrawal`:
`{success, transaction, new_balance}`. -/
structure SingleResult where
  transaction : Txn
  new_balance : Int
deriving DecidableEq, Repr

/-- `TransactionService.processDeposit`.  The generated reference is the
`ref` parameter (the value of `generateReference()` for the current clock
and random draw).  Errors leave the database unchanged: the only durable
write is the single `INSERT`, which is atomic. -/
def processDeposit (st : St) (account_id : Nat) (amount : Int)
    (counterparty : Option String) (description : Option String)
    (ref : String) : Except String (SingleResult × St) :=
  match findAccount st.accounts account_id with
  | none => .error "Account not found"
  | some account =>
    if ¬ isActive account then
      .error "Account is not active"
    else
      match canCredit account amount with
      | .denied reason => .error reason
      | .allowed newBalance =>
        match insertTxn st { account_id := account_id, amount := amount
                             txn_type := .DEPOSIT, counterparty := counterparty
                             reference := ref, description := description } with
        | .error e => .error e
        | .ok (t, st') => .ok ({ transaction := t, new_balance := newBalance }, st')

/-- `TransactionService.processWithdrawal`, analogous to `processDeposit`. -/
def processWithdrawal (st : St) (account_id : Nat) (amount : Int)
    (counterparty : Option String) (description : Option String)
    (ref : String) : Except String (SingleResult × St) :=
  match findAccount st.accounts account_id with
  | none => .error "Account not found"
  | some account =>
    if ¬ isActive account then
      .error "Account is not active"
    else
      match canDebit account amount with
      | .denied reason => .error reason
      | .allowed newBalance =>
        match insertTxn st { account_id := account_id, amount := amount
                             txn_type := .WITHDRAWAL, counterparty := counterparty
                             reference := ref, description := description } with
        | .error e => .error e
        | .ok (t, st') => .ok ({ transaction := t, new_balance := newBalance }, st')

/-- `processWithdrawal` with the post-state made explicit: a failed
withdrawal leaves the database state unchanged (the single `INSERT`
statement is atomic and nothing was written before it). -/
def runWithdrawal (st : St) (account_id : Nat) (amount : Int)
    (counterparty : Option String) (description : Option String)
    (ref : String) : Except String SingleResult × St :=
  match processWithdrawal st account_id amount counterparty description ref with
  | .ok (r, st') => (.ok r, st')
  | .error e => (.error e, st)

/-- `processDeposit` with the post-state made explicit. -/
def runDeposit (st : St) (account_id : Nat) (amount : Int)
    (counterparty : Option String) (description : Option String)
    (ref : String) : Except String SingleResult × St :=
  match processDeposit st account_id amount counterparty description ref with
  | .ok (r, st') => (.ok r, st')
  | .error e => (.error e, st)

/-- The callback `TransactionService.processTransfer` passes to
`db.transaction`: lock both accounts (source first, then destination —
returning the list of lock attempts in order), null-check and
activity-check them, check debit/credit feasibility, build the two leg
entries with references `ref ++ "-OUT"` / `ref ++ "-IN"`, and insert them
through `TransactionRepository.createMultiple`.

Modelled from the spec: `src/database/connection.js` (the `db.transaction`
wrapper) is absent from the sources.  Per the spec, the ledger writes and
balance updates execute "as one atomic unit — either both are visible or
neither is", so an `.error` result means the enclosing wrapper discards the
callback state (rollback) and the nested `db.transaction` inside
`createMultiple` joins the same atomic unit. -/
def transferBody (st : St) (td : TransferData) (ref : String) :
    Except String (TransferResult × St) × List Nat :=
  match lockForUpdate st td.from_account_id with
  | .error e => (.error e, [td.from_account_id])
  | .ok fromOpt =>
    match lockForUpdate st td.to_account_id with
    | .error e => (.error e, [td.from_account_id, td.to_account_id])
    | .ok toOpt =>
      let locks := [td.from_account_id, td.to_account_id]
      match fromOpt with
      | none => (.error "Source account not found", locks)
      | some fromAccount =>
        match toOpt with
        | none => (.error "Destination account not found", locks)
        | some toAccount =>
          if ¬ isActive fromAccount then
            (.error "Source account is not active", locks)
          else if ¬ isActive toAccount then
            (.error "Destination account is not active", locks)
          else
            match canDebit fromAccount td.amount with
            | .denied reason => (.error ("Transfer failed: " ++ reason), locks)
            | .allowed fromNewBal =>
              match canCredit toAccount td.amount with
              | .denied reason => (.error ("Transfer failed: " ++ reason), locks)
              | .allowed toNewBal =>
                let debitData : TxnData :=
                  { account_id := td.from_account_id, amount := td.amount
                    txn_type := .TRANSFER_OUT
                    counterparty := some ("Transfer to " ++ toAccount.account_number)
                    reference := ref ++ "-OUT", description := td.description }
                let creditData : TxnData :=
                  { account_id := td.to_account_id, amount := td.amount
                    txn_type := .TRANSFER_IN
                    counterparty := some ("Transfer from " ++ fromAccount.account_number)
                    reference := ref ++ "-IN", description := td.description }
                match insertTxn st debitData with
                | .error e => (.error e, locks)
                | .ok (dt, st1) =>
                  match insertTxn st1 creditData with
                  | .error e => (.error e, locks)
                  | .ok (ct, st2) =>
                    (.ok ({ success := true
                            transfer_reference := ref
                            debit_transaction := dt
                            credit_transaction := ct
                            from_account_new_balance := fromNewBal
                            to_account_new_balance := toNewBal }, st2), locks)

/-- The `try { ... } catch` part of `processTransfer`: run the transactional
body; on success store the result into the idempotency record when a key was
supplied; on any error delete the idempotency record (the `catch` branch) and
rethrow.  `st` is the state at entry of the `try` block; an error of the
body rolls it back to `st` (see `transferBody`). -/
def runTransferTry (st : St) (td : TransferData) (ikey : Option String)
    (ref : String) : Except String (Option TransferResult) × St × List Nat :=
  let b := transferBody st td ref
  let rs : Except String (Option TransferResult) × St :=
    match b.1 with
    | .ok (result, st2) =>
      match ikey with
      | some k =>
        match updateWithResult st2 k result.debit_transaction.txn_id result with
        | .ok st3 => (.ok (some result), st3)
        | .error e => (.error e, deleteIdemKey st2 k)
      | none => (.ok (some result), st2)
    | .error e =>
      match ikey with
      | some k => (.error e, deleteIdemKey st k)
      | none => (.error e, st)
  (rs.1, rs.2, b.2)

/-- `TransactionService.processTransfer(transferData, idempotencyKey)`.

The generated reference is the `ref` parameter.  The returned value is the
JavaScript return value: on the replay path the code returns
`keyStatus.response`, which is `null` when no response was stored, hence the
`Option TransferResult` success type.  The second component is the resulting
database state and the third the ordered list of lock attempts
(`SELECT ... FOR UPDATE` executions). -/
def processTransfer (st : St) (td : TransferData) (ikey : Option String)
    (ref : String) : Except String (Option TransferResult) × St × List Nat :=
  match ikey with
  | some k =>
    let ks := checkKey st k
    if ks.existsFlag then
      if ks.expired then
        (.error "Idempotency key has expired", st, [])
      else if ks.processed then
        (.ok ks.response, st, [])
      else
        runTransferTry st td (some k) ref
    else
      match createIdemKey st k td with
      | .error e => (.error e, st, [])
      | .ok st1 => runTransferTry st1 td (some k) ref
  | none => runTransferTry st td none ref

/-- One base-36 digit as produced by JavaScript `Number.toString(36)`:
`0`–`9` then lowercase `a`–`z`. -/
def base36Char (d : Nat) : Char :=
  if d < 10 then Char.ofNat (48 + d) else Char.ofNat (87 + d)

/-- `generateReference` from referenceGenerator.js, with its two
environmental inputs made explicit: `dateStr` is
`now.toISOString().slice(0, 10)` with the dashes removed (the UTC date as 8
ASCII digits) and `frac` is the list of base-36 fractional digits of the drawn
`Math.random()` value, so that `Math.random().toString(36)` is `"0."`
followed by `frac` (or `"0"` when `frac` is empty).  `substring(2, 8)` keeps
at most the first six of those digits and `toUpperCase()` uppercases them
(applied here per character). -/
def generateReference (dateStr : String) (frac : List Nat) : String :=
  "REF" ++ dateStr ++ "-" ++
    String.mk ((frac.take 6).map (fun d => (base36Char d).toUpper))

/-- The signed sum of the ledger entries of one account
(`sum(signed ledger entries for A)` of the spec, with the signs the
`update_account_balance` trigger applies). -/
def ledgerSum (l : List Txn) (aid : Nat) : Int :=
  l.foldl (fun s t => if t.account_id = aid then s + signedAmt t else s) 0

/-- Every ledger entry's `balance_after` equals the signed sum of its
account's entries up to and including itself. -/
def balanceAfterOk (l : List Txn) : Bool :=
  (List.range l.length).all fun i =>
    match l.get? i with
    | some t => decide (t.balance_after = some (ledgerSum (l.take (i + 1)) t.account_id))
    | none => true

/-- The ledger-balance invariant over the two tables: every account's
`current_balance` is the signed sum of its ledger entries, and every
entry's `balance_after` snapshots the balance immediately after it. -/
def invAL (accounts : List AccountProjection) (l : List Txn) : Bool :=
  accounts.all (fun a => decide (a.current_balance = ledgerSum l a.account_id)) &&
  balanceAfterOk l

/-- The ledger-balance invariant of a database state. -/
def ledgerInv (st : St) : Bool :=
  invAL st.accounts st.ledger

/-- One core operation of the Transaction Engine. -/
inductive CoreOp
  | deposit (account_id : Nat) (amount : Int)
      (counterparty description : Option String) (ref : String)
  | withdraw (account_id : Nat) (amount : Int)
      (counterparty description : Option String) (ref : String)
  | transfer (td : TransferData) (ikey : Option String) (ref : String)
deriving DecidableEq, Repr

/-- The database state after running one core operation. -/
def runOp (st : St) : CoreOp → St
  | .deposit a amt cp ds ref => (runDeposit st a amt cp ds ref).2
  | .withdraw a amt cp ds ref => (runWithdrawal st a amt cp ds ref).2
  | .transfer td ikey ref => (processTransfer st td ikey ref).2.1

/-! ## Concrete fixtures used by the witnesses and counterexamples -/

/-- An ACTIVE savings account with id 1 and balance 500. -/
def savings1 : AccountProjection :=
  { account_id := 1, customer_id := 1, account_number := "688833778001"
    account_type := .SAVINGS, current_balance := 500, status := .ACTIVE }

/-- An ACTIVE current (overdraft-capable) account with id 2 and balance 30. -/
def current2 : AccountProjection :=
  { account_id := 2, customer_id := 1, account_number := "688833778002"
    account_type := .CURRENT, current_balance := 30, status := .ACTIVE }

/-- An ACTIVE savings account with id 3 and balance 200. -/
def savings3 : AccountProjection :=
  { account_id := 3, customer_id := 2, account_number := "688833778003"
    account_type := .SAVINGS, current_balance := 200, status := .ACTIVE }

/-- An ACTIVE savings account with id 5 and balance 400. -/
def savings5 : AccountProjection :=
  { account_id := 5, customer_id := 3, account_number := "688833778005"
    account_type := .SAVINGS, current_balance := 400, status := .ACTIVE }

/-- A database state with three funded ACTIVE accounts, an empty ledger and
no idempotency keys. -/
def baseState : St :=
  { accounts := [savings1, current2, savings3], ledger := [], idem := []
    nextTxnId := 1, now := 1000 }

/-- A transfer request of 100 from account 1 to account 3. -/
def transferReq : TransferData :=
  { from_account_id := 1, to_account_id := 3, amount := 100, description := none }

/-- A well-formed generated reference (date 2025-01-01, random tail ABC123). -/
def goodRef : String := "REF20250101-ABC123"

/-- An in-flight idempotency record for key k1: no result stored yet and not
expired at clock 1000. -/
def inflightRecord : IdemRecord :=
  { key := "k1", txn_id := none, request_body := none, response_body := none
    expires_at := 90000 }

/-- `baseState` with the in-flight record for k1 present. -/
def inflightState : St :=
  { baseState with idem := [inflightRecord] }

/-- An idempotency record for key k1 that has expired at clock 1000. -/
def expiredRecord : IdemRecord :=
  { key := "k1", txn_id := none, request_body := none, response_body := none
    expires_at := 10 }

/-- `baseState` with the expired record for k1 present. -/
def expiredState : St :=
  { baseState with idem := [expiredRecord] }

/-- A state holding accounts 3 and 5, for observing lock order. -/
def lockState : St :=
  { accounts := [savings3, savings5], ledger := [], idem := []
    nextTxnId := 1, now := 1000 }

/-- A transfer of 50 from account 5 to account 3 (descending account ids). -/
def transferReq53 : TransferData :=
  { from_account_id := 5, to_account_id := 3, amount := 50, description := none }

/-- The lock-acquisition order claimed by the spec: "a fixed, deterministic
order (e.g., ascending account-id)" — the smaller account id first.  This
definition follows the spec words, for comparison against the code. -/
def lockOrderPerSpec (td : TransferData) : List Nat :=
  if td.from_account_id ≤ td.to_account_id then
    [td.from_account_id, td.to_account_id]
  else
    [td.to_account_id, td.from_account_id]

/-- `baseState` with all balances zeroed, so that the ledger-balance
invariant holds (empty ledger, zero balances). -/
def zeroState : St :=
  { accounts := [{ savings1 with current_balance := 0 },
                 { current2 with current_balance := 0 },
                 { savings3 with current_balance := 0 }]
    ledger := [], idem := [], nextTxnId := 1, now := 1000 }

end Banking

namespace Banking

/-! ## Claim theorems -/

/-- C1: the two transfer legs are derived with suffixed references
`ref-OUT` / `ref-IN`, but those references fail the ledger store's
reference validity check (`Transaction.validate`'s anchored regex), so a
transfer can never commit its dual entries: on a fully valid request the
engine throws the validation error and writes nothing.  The claim's final
conjunct — that both entries satisfy the reference validity check — is
false on the code. -/
theorem transfer_leg_references_fail_validation :
    isValidReference goodRef = true ∧
    txnDataValidateErrors
      { account_id := 1, amount := 100, txn_type := .TRANSFER_OUT
        counterparty := some "Transfer to 688833778003"
        reference := goodRef ++ "-OUT", description := none } =
      ["Reference must follow pattern REF[YYYYMMDD]-[6CHARS]"] ∧
    (processTransfer baseState transferReq none goodRef).1 =
      .error "Validation failed: Reference must follow pattern REF[YYYYMMDD]-[6CHARS]" ∧
    (processTransfer baseState transferReq none goodRef).2.1 = baseState := by
  decide

/-- C3: issuing the same transfer request with idempotency key k1 twice
sequentially does not return a `TransferResult` twice with two ledger
entries: both calls fail with the reference-validation error (the transfer
legs never pass `Transaction.validate`), and the ledger holds zero entries
afterwards, not two. -/
theorem sequential_transfer_retry_zero_entries :
    (processTransfer baseState transferReq (some "k1") goodRef).1 =
      .error "Validation failed: Reference must follow pattern REF[YYYYMMDD]-[6CHARS]" ∧
    (processTransfer baseState transferReq (some "k1") goodRef).2.1.ledger = [] ∧
    (processTransfer (processTransfer baseState transferReq (some "k1") goodRef).2.1
        transferReq (some "k1") goodRef).1 =
      .error "Validation failed: Reference must follow pattern REF[YYYYMMDD]-[6CHARS]" ∧
    (processTransfer (processTransfer baseState transferReq (some "k1") goodRef).2.1
        transferReq (some "k1") goodRef).2.1.ledger.length = 0 := by
  decide

/-- C9: `generateReference` does not produce a 6-character random tail for
every random draw: the draw `Math.random() = 0.5` (base-36 digits `[18]`,
i.e. `"0.i"`) yields `REF20250101-I`, which fails `isValidReference`; a
draw with at least six base-36 fractional digits does match the format. -/
theorem reference_generator_random_tail_too_short :
    generateReference "20250101" [18] = "REF20250101-I" ∧
    isValidReference (generateReference "20250101" [18]) = false ∧
    isValidReference (generateReference "20250101" [10, 11, 12, 13, 14, 15]) = true := by
  decide

/-- C5 counterexample: on a transfer whose idempotency key has an expired
record, the engine does not treat the key as absent and proceed — it fails
with `Idempotency key has expired`, attempts no lock, recreates nothing and
leaves the state (expired record included) unchanged. -/
theorem expired_key_rejected_not_recreated :
    (checkKey expiredState "k1").expired = true ∧
    processTransfer expiredState transferReq (some "k1") goodRef =
      (.error "Idempotency key has expired", expiredState, []) ∧
    findKey expiredState.idem "k1" = some expiredRecord := by
  decide

/-- C4 counterexample: with an in-flight (existing, unexpired, no result)
record for key k1, the transfer is not rejected with a DuplicateInFlight
error: the engine proceeds into the business logic (both account locks are
attempted), fails there with the reference-validation error, and deletes
the in-flight record. -/
theorem inflight_key_not_rejected :
    (checkKey inflightState "k1").existsFlag = true ∧
    (checkKey inflightState "k1").expired = false ∧
    (checkKey inflightState "k1").processed = false ∧
    (processTransfer inflightState transferReq (some "k1") goodRef).2.2 = [1, 3] ∧
    (processTransfer inflightState transferReq (some "k1") goodRef).1 =
      .error "Validation failed: Reference must follow pattern REF[YYYYMMDD]-[6CHARS]" ∧
    findKey (processTransfer inflightState transferReq (some "k1") goodRef).2.1.idem "k1" =
      none := by
  decide

/-- The lock attempts of the transfer body always start with the source
account: the `SELECT ... FOR UPDATE` on `from_account_id` is issued first. -/
theorem transferBody_locks_head (st : St) (td : TransferData) (ref : String) :
    ((transferBody st td ref).2).head? = some td.from_account_id := by
  unfold transferBody
  repeat first | rfl | split | dsimp only

/-- When the source account exists, both locks are attempted, in request
order. -/
theorem transferBody_locks_pair (st : St) (td : TransferData) (ref : String)
    (a : AccountProjection)
    (h : findAccount st.accounts td.from_account_id = some a) :
    (transferBody st td ref).2 = [td.from_account_id, td.to_account_id] := by
  have hl : lockForUpdate st td.from_account_id = .ok (some a) := by
    unfold lockForUpdate
    rw [h]
  unfold transferBody
  simp only [hl]
  repeat first | rfl | split | dsimp only

/-- The transfer body's lock attempts are `[from]` (source missing) or
`[from, to]`. -/
theorem transferBody_locks (st : St) (td : TransferData) (ref : String) :
    (transferBody st td ref).2 = [td.from_account_id] ∨
    (transferBody st td ref).2 = [td.from_account_id, td.to_account_id] := by
  cases h : findAccount st.accounts td.from_account_id with
  | none =>
      left
      unfold transferBody lockForUpdate
      rw [h]
  | some a =>
      right
      exact transferBody_locks_pair st td ref a h

/-- The `try` wrapper reports exactly the lock attempts of the body. -/
theorem runTransferTry_locks (st : St) (td : TransferData)
    (ikey : Option String) (ref : String) :
    (runTransferTry st td ikey ref).2.2 = (transferBody st td ref).2 := rfl

/-- `processTransfer` either short-circuits before any lock (empty trace) or
reports the body's lock attempts against some intermediate state. -/
theorem processTransfer_locks_cases (st : St) (td : TransferData)
    (ikey : Option String) (ref : String) :
    (processTransfer st td ikey ref).2.2 = [] ∨
    ∃ st', (processTransfer st td ikey ref).2.2 = (transferBody st' td ref).2 := by
  unfold processTransfer
  cases ikey with
  | none => exact Or.inr ⟨st, rfl⟩
  | some k =>
      by_cases hex : (checkKey st k).existsFlag
      · by_cases hxp : (checkKey st k).expired
        · simp [hex, hxp]
        · by_cases hpr : (checkKey st k).processed
          · simp [hex, hxp, hpr]
          · simp [hex, hxp, hpr]
            exact Or.inr ⟨st, rfl⟩
      · simp [hex]
        cases hc : createIdemKey st k td with
        | error e => simp
        | ok st1 => exact Or.inr ⟨st1, rfl⟩

/-- C7 counterexample: for a transfer from account 5 to account 3 the row
locks are attempted as `[5, 3]` — source first — not in the ascending
account-id order `[3, 5]` the claim states. -/
theorem transfer_locks_not_ascending :
    (processTransfer lockState transferReq53 none goodRef).2.2 = [5, 3] ∧
    lockOrderPerSpec transferReq53 = [3, 5] ∧
    (processTransfer lockState transferReq53 none goodRef).2.2 ≠
      lockOrderPerSpec transferReq53 := by
  decide

/-- C7 (amended): the two row locks are acquired in request order — the
source account's row first, then the destination's — regardless of the
identifier order: every lock trace is a prefix of
`[from_account_id, to_account_id]`, and when the source account exists (no
idempotency short-circuit) the trace is exactly that pair. -/
theorem transfer_locks_request_order (st : St) (td : TransferData)
    (ikey : Option String) (ref : String) :
    ((processTransfer st td ikey ref).2.2 = [] ∨
     (processTransfer st td ikey ref).2.2 = [td.from_account_id] ∨
     (processTransfer st td ikey ref).2.2 =
       [td.from_account_id, td.to_account_id]) ∧
    (∀ a, findAccount st.accounts td.from_account_id = some a →
      (processTransfer st td none ref).2.2 =
        [td.from_account_id, td.to_account_id]) := by
  constructor
  · rcases processTransfer_locks_cases st td ikey ref with h | ⟨st', h⟩
    · exact Or.inl h
    · rcases transferBody_locks st' td ref with h2 | h2
      · exact Or.inr (Or.inl (h.trans h2))
      · exact Or.inr (Or.inr (h.trans h2))
  · intro a ha
    exact transferBody_locks_pair st td ref a ha

/-- Witness for `transfer_locks_request_order`: on the concrete state with
accounts 5 and 3 the transfer 5 → 3 locks `[5, 3]`. -/
theorem transfer_locks_request_order_witness :
    (processTransfer lockState transferReq53 none goodRef).2.2 = [5, 3] :=
  (transfer_locks_request_order lockState transferReq53 none goodRef).2
    savings5 (by decide)

/-- C5 (amended): a transfer whose idempotency key has an expired record is
not treated as absent — it fails immediately with
`Idempotency key has expired`, attempts no lock, and leaves the database
(expired record included) unchanged. -/
theorem expired_key_transfer_errors (st : St) (td : TransferData)
    (k : String) (ref : String) (rec : IdemRecord)
    (h1 : findKey st.idem k = some rec) (h2 : st.now > rec.expires_at) :
    processTransfer st td (some k) ref =
      (.error "Idempotency key has expired", st, []) := by
  unfold processTransfer checkKey
  dsimp only
  rw [h1]
  simp [h2]

/-- Witness for `expired_key_transfer_errors` at the concrete expired
record. -/
theorem expired_key_transfer_errors_witness :
    processTransfer expiredState transferReq (some "k1") goodRef =
      (.error "Idempotency key has expired", expiredState, []) :=
  expired_key_transfer_errors expiredState transferReq "k1" goodRef
    expiredRecord (by decide) (by decide)

/-- C4 (amended): when a record for the key exists, is not expired and has
no stored result (the operation is in flight), the engine does not reject
the request: it falls through the idempotency gate and executes the
business logic, beginning with the lock attempt on the source account. -/
theorem inflight_key_executes_business_logic (st : St) (td : TransferData)
    (k : String) (ref : String) (rec : IdemRecord)
    (h1 : findKey st.idem k = some rec) (h2 : ¬ st.now > rec.expires_at)
    (h3 : rec.txn_id = none) :
    (processTransfer st td (some k) ref).2.2.head? =
      some td.from_account_id := by
  unfold processTransfer checkKey
  dsimp only
  rw [h1]
  simp [h2, h3]
  rw [runTransferTry_locks]
  exact transferBody_locks_head st td ref

/-- Witness for `inflight_key_executes_business_logic` at the concrete
in-flight record. -/
theorem inflight_key_executes_business_logic_witness :
    (processTransfer inflightState transferReq (some "k1") goodRef).2.2.head? =
      some 1 :=
  inflight_key_executes_business_logic inflightState transferReq "k1" goodRef
    inflightRecord (by decide) (by decide) (by decide)

/-- An `INSERT` through `TransactionRepository.create` succeeds when the row
data passes `Transaction.validate`, the reference is fresh and the account
exists. -/
theorem insertTxn_ok_of_valid (st : St) (d : TxnData) (a : AccountProjection)
    (h0 : d.account_id ≠ 0) (h1 : 0 < d.amount)
    (h2 : isValidReference d.reference = true)
    (h3 : ∀ t ∈ st.ledger, t.reference ≠ d.reference)
    (hf : findAccount st.accounts d.account_id = some a) :
    ∃ t st', insertTxn st d = .ok (t, st') := by
  have he : txnDataValidateErrors d = [] := by
    unfold txnDataValidateErrors
    simp [h0, h2, not_le.mpr h1]
  have ha : (st.ledger.any fun t => t.reference = d.reference) = false := by
    simp only [List.any_eq_false, decide_eq_true_eq]
    exact h3
  unfold insertTxn
  dsimp only
  rw [he, ha, hf]
  simp

/-- C6: for a positive amount, a well-formed fresh reference and a nonzero
account id, a withdrawal succeeds exactly when the account exists, is
ACTIVE, and either the post-withdrawal balance is non-negative or the
account type is CURRENT; when the debit would make a non-CURRENT account's
balance negative, it fails with the insufficient-balance error and the
database (balance and ledger) is unchanged. -/
theorem withdrawal_succeeds_iff (st : St) (aid : Nat) (amt : Int)
    (cp ds : Option String) (ref : String)
    (hid : aid ≠ 0) (hamt : 0 < amt) (href : isValidReference ref = true)
    (hfresh : ∀ t ∈ st.ledger, t.reference ≠ ref) :
    ((∃ r st', processWithdrawal st aid amt cp ds ref = .ok (r, st')) ↔
      ∃ a, findAccount st.accounts aid = some a ∧
        a.status = AccountStatus.ACTIVE ∧
        (0 ≤ a.current_balance - amt ∨ a.account_type = AccountType.CURRENT)) ∧
    (∀ a, findAccount st.accounts aid = some a →
      a.status = AccountStatus.ACTIVE →
      a.current_balance - amt < 0 → a.account_type ≠ AccountType.CURRENT →
      runWithdrawal st aid amt cp ds ref =
        (.error "Insufficient balance - no overdraft allowed for this account type",
         st)) := by
  constructor
  · constructor
    · rintro ⟨r, st', hok⟩
      unfold processWithdrawal at hok
      cases hf : findAccount st.accounts aid with
      | none => rw [hf] at hok; cases hok
      | some a =>
        rw [hf] at hok
        refine ⟨a, rfl, ?_, ?_⟩
        · by_cases hact : isActive a
          · simpa [isActive] using hact
          · simp [hact] at hok
        · by_cases hact : isActive a
          · unfold canDebit at hok
            simp only [hact] at hok
            by_cases hc : a.current_balance - amt < 0 ∧ ¬ allowsOverdraft a = true
            · simp [hc] at hok
            · rcases not_and_or.mp hc with h | h
              · exact Or.inl (not_lt.mp h)
              · right
                have hov : allowsOverdraft a = true := not_not.mp h
                simpa [allowsOverdraft] using hov
          · simp [hact] at hok
    · rintro ⟨a, hf, hstatus, hcond⟩
      have hact : isActive a = true := by simp [isActive, hstatus]
      have hdeb : canDebit a amt = .allowed (a.current_balance - amt) := by
        have hc : ¬ (a.current_balance - amt < 0 ∧ ¬ allowsOverdraft a = true) := by
          rcases hcond with h | h
          · exact fun hh => absurd hh.1 (not_lt.mpr h)
          · exact fun hh => hh.2 (by simp [allowsOverdraft, h])
        unfold canDebit
        rw [if_neg (not_not_intro hact)]
        dsimp only
        rw [if_neg hc]
      obtain ⟨t, st', hins⟩ :=
        insertTxn_ok_of_valid st
          { account_id := aid, amount := amt, txn_type := .WITHDRAWAL
            counterparty := cp, reference := ref, description := ds }
          a hid hamt href hfresh hf
      refine ⟨{ transaction := t, new_balance := a.current_balance - amt }, st', ?_⟩
      unfold processWithdrawal
      rw [hf]
      simp [hact, hdeb, hins]
  · intro a hf hstatus hneg hnotcur
    have hact : isActive a = true := by simp [isActive, hstatus]
    have hdeb : canDebit a amt =
        .denied "Insufficient balance - no overdraft allowed for this account type" := by
      unfold canDebit
      have hod : allowsOverdraft a = false := by
        simp only [allowsOverdraft, decide_eq_false_iff_not]
        exact hnotcur
      simp [hact, hod, hneg]
    unfold runWithdrawal processWithdrawal
    rw [hf]
    simp [hact, hdeb]

/-- Witness for `withdrawal_succeeds_iff`: withdrawing 50 from savings
account 1 (balance 500) succeeds; withdrawing 300 from savings account 3
(balance 200) fails with the insufficient-balance error and leaves the
state unchanged. -/
theorem withdrawal_succeeds_iff_witness :
    (∃ r st', processWithdrawal baseState 1 50 none none goodRef = .ok (r, st')) ∧
    runWithdrawal baseState 3 300 none none goodRef =
      (.error "Insufficient balance - no overdraft allowed for this account type",
       baseState) := by
  constructor
  · exact (withdrawal_succeeds_iff baseState 1 50 none none goodRef
      (by decide) (by decide) (by decide) (by simp [baseState])).1.mpr
      ⟨savings1, by decide, by decide, Or.inl (by decide)⟩
  · exact (withdrawal_succeeds_iff baseState 3 300 none none goodRef
      (by decide) (by decide) (by decide) (by simp [baseState])).2
      savings3 (by decide) (by decide) (by decide) (by decide)

/-- `lockForUpdate` never returns a null row: it throws
`Account projection not found` or returns the found projection. -/
theorem lockForUpdate_never_null (st : St) (aid : Nat) :
    lockForUpdate st aid = .error "Account projection not found" ∨
    ∃ a, lockForUpdate st aid = .ok (some a) := by
  unfold lockForUpdate
  cases h : findAccount st.accounts aid <;> simp

/-- The only error `lockForUpdate` throws is the missing-projection one. -/
theorem lockForUpdate_error_eq (st : St) (aid : Nat) (e : String)
    (h : lockForUpdate st aid = .error e) :
    e = "Account projection not found" := by
  unfold lockForUpdate at h
  split at h
  · injection h with h
    exact h.symm
  · cases h

/-- The reasons `canDebit` can deny. -/
theorem canDebit_denied_reason (a : AccountProjection) (x : Int) (r : String)
    (h : canDebit a x = .denied r) :
    r = "Account is not active" ∨
    r = "Insufficient balance - no overdraft allowed for this account type" := by
  unfold canDebit at h
  split at h
  · injection h with h
    exact Or.inl h.symm
  · dsimp only at h
    split at h
    · injection h with h
      exact Or.inr h.symm
    · cases h

/-- The reason `canCredit` can deny. -/
theorem canCredit_denied_reason (a : AccountProjection) (x : Int) (r : String)
    (h : canCredit a x = .denied r) :
    r = "Account is not active" := by
  unfold canCredit at h
  split at h
  · injection h with h
    exact h.symm
  · cases h

/-- The errors `insertTxn` can throw. -/
theorem insertTxn_error_cases (st : St) (d : TxnData) (e : String)
    (h : insertTxn st d = .error e) :
    e = "Validation failed: " ++ joinErrors (txnDataValidateErrors d) ∨
    e = "Transaction reference already exists" ∨
    e = "insert into transactions violates foreign key constraint" := by
  unfold insertTxn at h
  dsimp only at h
  split at h
  · injection h with h
    exact Or.inl h.symm
  · split at h
    · injection h with h
      exact Or.inr (Or.inl h.symm)
    · split at h
      · injection h with h
        exact Or.inr (Or.inr h.symm)
      · cases h

/-- A `Transaction.validate` failure message never coincides with the dead
null-check messages of `processTransfer`. -/
theorem txnValidationError_ne (d : TxnData) :
    ("Validation failed: " ++ joinErrors (txnDataValidateErrors d)) ≠
      "Source account not found" ∧
    ("Validation failed: " ++ joinErrors (txnDataValidateErrors d)) ≠
      "Destination account not found" := by
  unfold txnDataValidateErrors
  split <;> split <;> split <;> exact ⟨by decide, by decide⟩

/-- An `IdempotencyKey.validate` failure message never coincides with the
dead null-check messages. -/
theorem idemValidationError_ne (k : String) :
    ("Validation failed: " ++ joinErrors (idemValidateErrors k)) ≠
      "Source account not found" ∧
    ("Validation failed: " ++ joinErrors (idemValidateErrors k)) ≠
      "Destination account not found" := by
  unfold idemValidateErrors
  split <;> split <;> exact ⟨by decide, by decide⟩

/-- The only error `updateWithResult` throws. -/
theorem updateWithResult_error_eq (st : St) (k : String) (tid : Nat)
    (r : TransferResult) (e : String)
    (h : updateWithResult st k tid r = .error e) :
    e = "Idempotency key not found" := by
  unfold updateWithResult at h
  split at h
  · injection h with h
    exact h.symm
  · cases h

/-- The errors `createIdemKey` can throw. -/
theorem createIdemKey_error_cases (st : St) (k : String) (b : TransferData)
    (e : String) (h : createIdemKey st k b = .error e) :
    e = "Validation failed: " ++ joinErrors (idemValidateErrors k) ∨
    e = "Idempotency key already exists" := by
  unfold createIdemKey at h
  dsimp only at h
  split at h
  · injection h with h
    exact Or.inl h.symm
  · split at h
    · injection h with h
      exact Or.inr h.symm
    · cases h

/-- The transfer body never produces the dead null-check errors: every lock
failure surfaces as the lock layer's own `Account projection not found`. -/
theorem transferBody_no_null_error (st : St) (td : TransferData)
    (ref : String) (e : String)
    (h : (transferBody st td ref).1 = .error e)
    (he : e = "Source account not found" ∨ e = "Destination account not found") :
    False := by
  unfold transferBody at h
  cases h1 : lockForUpdate st td.from_account_id with
  | error e1 =>
      rw [h1] at h
      dsimp only at h
      injection h with h
      have h1e := lockForUpdate_error_eq st td.from_account_id e1 h1
      rcases he with he | he <;> rw [← h, h1e] at he <;> exact absurd he (by decide)
  | ok fromOpt =>
      have hfsome : ∃ a, fromOpt = some a := by
        rcases lockForUpdate_never_null st td.from_account_id with hh | ⟨a, hh⟩
        · rw [h1] at hh
          cases hh
        · rw [h1] at hh
          injection hh with hh
          exact ⟨a, hh⟩
      obtain ⟨fa, rfl⟩ := hfsome
      rw [h1] at h
      dsimp only at h
      cases h2 : lockForUpdate st td.to_account_id with
      | error e2 =>
          rw [h2] at h
          dsimp only at h
          injection h with h
          have h2e := lockForUpdate_error_eq st td.to_account_id e2 h2
          rcases he with he | he <;> rw [← h, h2e] at he <;> exact absurd he (by decide)
      | ok toOpt =>
          have htsome : ∃ a, toOpt = some a := by
            rcases lockForUpdate_never_null st td.to_account_id with hh | ⟨a, hh⟩
            · rw [h2] at hh
              cases hh
            · rw [h2] at hh
              injection hh with hh
              exact ⟨a, hh⟩
          obtain ⟨ta, rfl⟩ := htsome
          rw [h2] at h
          dsimp only at h
          by_cases ha1 : isActive fa = true
          · rw [if_neg (not_not_intro ha1)] at h
            by_cases ha2 : isActive ta = true
            · rw [if_neg (not_not_intro ha2)] at h
              cases h3 : canDebit fa td.amount with
              | denied r =>
                  rw [h3] at h
                  dsimp only at h
                  injection h with h
                  rcases canDebit_denied_reason fa td.amount r h3 with rfl | rfl <;>
                    rcases he with he | he <;> rw [← h] at he <;>
                      exact absurd he (by decide)
              | allowed nb1 =>
                  rw [h3] at h
                  dsimp only at h
                  cases h4 : canCredit ta td.amount with
                  | denied r =>
                      rw [h4] at h
                      dsimp only at h
                      injection h with h
                      have := canCredit_denied_reason ta td.amount r h4
                      subst this
                      rcases he with he | he <;> rw [← h] at he <;>
                        exact absurd he (by decide)
                  | allowed nb2 =>
                      rw [h4] at h
                      dsimp only at h
                      cases h5 : insertTxn st
                          { account_id := td.from_account_id, amount := td.amount
                            txn_type := .TRANSFER_OUT
                            counterparty := some ("Transfer to " ++ ta.account_number)
                            reference := ref ++ "-OUT"
                            description := td.description } with
                      | error e5 =>
                          rw [h5] at h
                          dsimp only at h
                          injection h with h
                          rcases insertTxn_error_cases _ _ _ h5 with h5e | h5e | h5e <;>
                            rw [← h, h5e] at he
                          · rcases he with he | he
                            · exact absurd he (txnValidationError_ne _).1
                            · exact absurd he (txnValidationError_ne _).2
                          · rcases he with he | he <;> exact absurd he (by decide)
                          · rcases he with he | he <;> exact absurd he (by decide)
                      | ok p5 =>
                          obtain ⟨dt, st1⟩ := p5
                          rw [h5] at h
                          dsimp only at h
                          cases h6 : insertTxn st1
                              { account_id := td.to_account_id, amount := td.amount
                                txn_type := .TRANSFER_IN
                                counterparty := some ("Transfer from " ++ fa.account_number)
                                reference := ref ++ "-IN"
                                description := td.description } with
                          | error e6 =>
                              rw [h6] at h
                              dsimp only at h
                              injection h with h
                              rcases insertTxn_error_cases _ _ _ h6 with h6e | h6e | h6e <;>
                                rw [← h, h6e] at he
                              · rcases he with he | he
                                · exact absurd he (txnValidationError_ne _).1
                                · exact absurd he (txnValidationError_ne _).2
                              · rcases he with he | he <;> exact absurd he (by decide)
                              · rcases he with he | he <;> exact absurd he (by decide)
                          | ok p6 =>
                              obtain ⟨ct, st2⟩ := p6
                              rw [h6] at h
                              dsimp only at h
                              cases h
            · rw [if_pos ha2] at h
              injection h with h
              rcases he with he | he <;> rw [← h] at he <;>
                exact absurd he (by decide)
          · rw [if_pos ha1] at h
            injection h with h
            rcases he with he | he <;> rw [← h] at he <;>
              exact absurd he (by decide)

/-- The `try` wrapper never produces the dead null-check errors either. -/
theorem runTransferTry_no_null_error (st : St) (td : TransferData)
    (ikey : Option String) (ref : String) (e : String)
    (h : (runTransferTry st td ikey ref).1 = .error e)
    (he : e = "Source account not found" ∨ e = "Destination account not found") :
    False := by
  unfold runTransferTry at h
  dsimp only at h
  cases hb : (transferBody st td ref).1 with
  | error eb =>
      rw [hb] at h
      dsimp only at h
      cases ikey with
      | some k =>
          dsimp only at h
          injection h with h
          exact transferBody_no_null_error st td ref e (h ▸ hb) he
      | none =>
          dsimp only at h
          injection h with h
          exact transferBody_no_null_error st td ref e (h ▸ hb) he
  | ok p =>
      obtain ⟨r0, st2⟩ := p
      rw [hb] at h
      dsimp only at h
      cases ikey with
      | some k =>
          dsimp only at h
          cases hu : updateWithResult st2 k r0.debit_transaction.txn_id r0 with
          | error eu =>
              rw [hu] at h
              dsimp only at h
              injection h with h
              have := updateWithResult_error_eq _ _ _ _ _ hu
              rcases he with he | he <;> rw [← h, this] at he <;>
                exact absurd he (by decide)
          | ok st3 =>
              rw [hu] at h
              cases h
      | none =>
          cases h

/-- C10: the post-lock null checks in `processTransfer` are unreachable:
`lockForUpdate` either throws `Account projection not found` or returns the
row, so the `Source account not found` / `Destination account not found`
errors can never be produced for any input. -/
theorem transfer_null_checks_unreachable :
    (∀ (st : St) (aid : Nat),
      lockForUpdate st aid = .error "Account projection not found" ∨
      ∃ a, lockForUpdate st aid = .ok (some a)) ∧
    (∀ (st : St) (td : TransferData) (ikey : Option String) (ref : String),
      (processTransfer st td ikey ref).1 ≠ .error "Source account not found" ∧
      (processTransfer st td ikey ref).1 ≠ .error "Destination account not found") := by
  refine ⟨lockForUpdate_never_null, ?_⟩
  intro st td ikey ref
  have key : ∀ e, (processTransfer st td ikey ref).1 = .error e →
      (e = "Source account not found" ∨ e = "Destination account not found") →
      False := by
    intro e h he
    unfold processTransfer at h
    cases ikey with
    | none => exact runTransferTry_no_null_error st td none ref e h he
    | some k =>
        dsimp only at h
        by_cases hex : (checkKey st k).existsFlag = true
        · rw [if_pos hex] at h
          by_cases hxp : (checkKey st k).expired = true
          · rw [if_pos hxp] at h
            injection h with h
            rcases he with he | he <;> rw [← h] at he <;>
              exact absurd he (by decide)
          · rw [if_neg hxp] at h
            by_cases hpr : (checkKey st k).processed = true
            · rw [if_pos hpr] at h
              cases h
            · rw [if_neg hpr] at h
              exact runTransferTry_no_null_error st td (some k) ref e h he
        · rw [if_neg hex] at h
          cases hc : createIdemKey st k td with
          | error ec =>
              rw [hc] at h
              dsimp only at h
              injection h with h
              rcases createIdemKey_error_cases _ _ _ _ hc with hce | hce <;>
                rw [← h, hce] at he
              · rcases he with he | he
                · exact absurd he (idemValidationError_ne _).1
                · exact absurd he (idemValidationError_ne _).2
              · rcases he with he | he <;> exact absurd he (by decide)
          | ok st1 =>
              rw [hc] at h
              exact runTransferTry_no_null_error st1 td (some k) ref e h he
  constructor <;> intro h
  · exact key _ h (Or.inl rfl)
  · exact key _ h (Or.inr rfl)

/-- What a successful `INSERT` does to the database: exactly one row
appended, the trigger's balance shift applied, everything else unchanged. -/
theorem insertTxn_ok_spec (st : St) (d : TxnData) (t : Txn) (st' : St)
    (h : insertTxn st d = .ok (t, st')) :
    st'.ledger = st.ledger ++ [t] ∧
    st'.accounts =
      applyTriggerUpdate st.accounts d.account_id
        (signedAmount d.txn_type d.amount) ∧
    st'.idem = st.idem ∧ st'.now = st.now ∧
    t.account_id = d.account_id ∧ t.txn_type = d.txn_type ∧
    t.amount = d.amount ∧ t.reference = d.reference ∧
    (∃ a, findAccount st.accounts d.account_id = some a ∧
      t.balance_after =
        some (a.current_balance + signedAmount d.txn_type d.amount)) := by
  unfold insertTxn at h
  dsimp only at h
  split at h
  · cases h
  · split at h
    · cases h
    · split at h
      · cases h
      · next a hf =>
          injection h with h
          injection h with h1 h2
          subst h1
          subst h2
          refine ⟨rfl, rfl, rfl, rfl, rfl, rfl, rfl, rfl, a, hf, rfl⟩

/-- What a successful transfer body does to the database: both legs
appended in order, both trigger balance updates applied, the idempotency
table untouched; the two inserts are exhibited for compositional reasoning. -/
theorem transferBody_ok_spec (st : St) (td : TransferData) (ref : String)
    (r : TransferResult) (st2 : St)
    (h : (transferBody st td ref).1 = .ok (r, st2)) :
    st2.ledger = st.ledger ++ [r.debit_transaction, r.credit_transaction] ∧
    st2.accounts =
      applyTriggerUpdate
        (applyTriggerUpdate st.accounts td.from_account_id (-td.amount))
        td.to_account_id td.amount ∧
    st2.idem = st.idem ∧
    r.debit_transaction.txn_type = .TRANSFER_OUT ∧
    r.debit_transaction.account_id = td.from_account_id ∧
    r.debit_transaction.amount = td.amount ∧
    r.credit_transaction.txn_type = .TRANSFER_IN ∧
    r.credit_transaction.account_id = td.to_account_id ∧
    r.credit_transaction.amount = td.amount ∧
    (∃ d1 d2 st1, insertTxn st d1 = .ok (r.debit_transaction, st1) ∧
      insertTxn st1 d2 = .ok (r.credit_transaction, st2)) := by
  unfold transferBody at h
  cases h1 : lockForUpdate st td.from_account_id with
  | error e1 =>
      rw [h1] at h
      cases h
  | ok fromOpt =>
      rw [h1] at h
      dsimp only at h
      cases h2 : lockForUpdate st td.to_account_id with
      | error e2 =>
          rw [h2] at h
          cases h
      | ok toOpt =>
          rw [h2] at h
          dsimp only at h
          cases fromOpt with
          | none => cases h
          | some fa =>
            cases toOpt with
            | none => cases h
            | some ta =>
              dsimp only at h
              by_cases ha1 : isActive fa = true
              · rw [if_neg (not_not_intro ha1)] at h
                by_cases ha2 : isActive ta = true
                · rw [if_neg (not_not_intro ha2)] at h
                  cases h3 : canDebit fa td.amount with
                  | denied r3 =>
                      rw [h3] at h
                      cases h
                  | allowed nb1 =>
                      rw [h3] at h
                      dsimp only at h
                      cases h4 : canCredit ta td.amount with
                      | denied r4 =>
                          rw [h4] at h
                          cases h
                      | allowed nb2 =>
                          rw [h4] at h
                          dsimp only at h
                          cases h5 : insertTxn st
                              { account_id := td.from_account_id
                                amount := td.amount
                                txn_type := .TRANSFER_OUT
                                counterparty :=
                                  some ("Transfer to " ++ ta.account_number)
                                reference := ref ++ "-OUT"
                                description := td.description } with
                          | error e5 =>
                              rw [h5] at h
                              cases h
                          | ok p5 =>
                              obtain ⟨dt, st1⟩ := p5
                              rw [h5] at h
                              dsimp only at h
                              cases h6 : insertTxn st1
                                  { account_id := td.to_account_id
                                    amount := td.amount
                                    txn_type := .TRANSFER_IN
                                    counterparty :=
                                      some ("Transfer from " ++ fa.account_number)
                                    reference := ref ++ "-IN"
                                    description := td.description } with
                              | error e6 =>
                                  rw [h6] at h
                                  cases h
                              | ok p6 =>
                                  obtain ⟨ct, st2x⟩ := p6
                                  rw [h6] at h
                                  dsimp only at h
                                  injection h with h
                                  injection h with hr hst
                                  subst hst
                                  subst hr
                                  obtain ⟨hl5, ha5, hi5, hn5, haid5, hty5, ham5, hr5, hb5⟩ :=
                                    insertTxn_ok_spec _ _ _ _ h5
                                  obtain ⟨hl6, ha6, hi6, hn6, haid6, hty6, ham6, hr6, hb6⟩ :=
                                    insertTxn_ok_spec _ _ _ _ h6
                                  refine ⟨?_, ?_, ?_, hty5, haid5, ham5, hty6, haid6, ham6,
                                    ⟨_, _, st1, h5, h6⟩⟩
                                  · rw [hl6, hl5]
                                    simp
                                  · rw [ha6, ha5]
                                    rfl
                                  · rw [hi6, hi5]
                · rw [if_pos ha2] at h
                  cases h
              · rw [if_pos ha1] at h
                cases h

/-- `updateWithResult` succeeds when the key is present, and touches only
the idempotency table. -/
theorem updateWithResult_ok_of_found (st : St) (k : String) (tid : Nat)
    (r : TransferResult) (hk : (findKey st.idem k).isSome = true) :
    ∃ st', updateWithResult st k tid r = .ok st' ∧
      st'.ledger = st.ledger ∧ st'.accounts = st.accounts := by
  unfold updateWithResult
  cases hx : findKey st.idem k with
  | none => rw [hx] at hk; cases hk
  | some rec =>
      exact ⟨_, rfl, rfl, rfl⟩

/-- A successful `createIdemKey` touches only the idempotency table and
makes the key findable. -/
theorem createIdemKey_ok_spec (st : St) (k : String) (b : TransferData)
    (st1 : St) (h : createIdemKey st k b = .ok st1) :
    st1.ledger = st.ledger ∧ st1.accounts = st.accounts ∧
    (findKey st1.idem k).isSome = true := by
  unfold createIdemKey at h
  dsimp only at h
  split at h
  · cases h
  · split at h
    · cases h
    · injection h with h
      subst h
      refine ⟨rfl, rfl, ?_⟩
      unfold findKey
      rw [List.find?_append]
      cases hf : List.find? (fun r => r.key = k) st.idem <;> simp [List.find?]

/-- `checkKey` reports existence exactly when `findKey` finds the record. -/
theorem checkKey_existsFlag (st : St) (k : String) :
    (checkKey st k).existsFlag = (findKey st.idem k).isSome := by
  unfold checkKey
  cases h : findKey st.idem k <;> simp

/-- Atomicity of the `try` wrapper given that a supplied key is present:
an error leaves the ledger and the account balances exactly as at entry;
success appends exactly the two legs and applies exactly the two balance
updates. -/
theorem runTransferTry_atomic (st : St) (td : TransferData)
    (ikey : Option String) (ref : String)
    (hk : ∀ k, ikey = some k → (findKey st.idem k).isSome = true) :
    (∀ e, (runTransferTry st td ikey ref).1 = .error e →
      (runTransferTry st td ikey ref).2.1.ledger = st.ledger ∧
      (runTransferTry st td ikey ref).2.1.accounts = st.accounts) ∧
    (∀ r, (runTransferTry st td ikey ref).1 = .ok r →
      ∃ dt ct,
        (runTransferTry st td ikey ref).2.1.ledger = st.ledger ++ [dt, ct] ∧
        dt.txn_type = .TRANSFER_OUT ∧ dt.account_id = td.from_account_id ∧
        dt.amount = td.amount ∧
        ct.txn_type = .TRANSFER_IN ∧ ct.account_id = td.to_account_id ∧
        ct.amount = td.amount ∧
        (runTransferTry st td ikey ref).2.1.accounts =
          applyTriggerUpdate
            (applyTriggerUpdate st.accounts td.from_account_id (-td.amount))
            td.to_account_id td.amount) := by
  unfold runTransferTry
  dsimp only
  cases hb : (transferBody st td ref).1 with
  | error eb =>
      cases ikey with
      | some k =>
          dsimp only
          exact ⟨fun e h => ⟨rfl, rfl⟩, fun r h => by cases h⟩
      | none =>
          dsimp only
          exact ⟨fun e h => ⟨rfl, rfl⟩, fun r h => by cases h⟩
  | ok p =>
      obtain ⟨res, st2⟩ := p
      obtain ⟨hl2, ha2, hi2, hty5, haid5, ham5, hty6, haid6, ham6, _⟩ :=
        transferBody_ok_spec st td ref res st2 hb
      cases ikey with
      | some k =>
          dsimp only
          have hk2 : (findKey st2.idem k).isSome = true := by
            rw [hi2]
            exact hk k rfl
          obtain ⟨st3, hu, hl3, ha3⟩ :=
            updateWithResult_ok_of_found st2 k res.debit_transaction.txn_id res hk2
          rw [hu]
          constructor
          · intro e h
            simp at h
          · intro r h
            exact ⟨res.debit_transaction, res.credit_transaction,
              by rw [hl3, hl2], hty5, haid5, ham5, hty6, haid6, ham6,
              by rw [ha3, ha2]⟩
      | none =>
          dsimp only
          constructor
          · intro e h
            simp at h
          · intro r h
            exact ⟨res.debit_transaction, res.credit_transaction,
              hl2, hty5, haid5, ham5, hty6, haid6, ham6, ha2⟩

/-- C2: the transfer's ledger writes and balance updates are atomic with
respect to the observable database state (the atomic-unit wrapper is
modelled from the spec, `database/connection.js` being absent from the
sources): whenever `processTransfer` returns an error, the ledger and the
account balances are exactly as before the call; whenever it returns a
result, either it replayed a stored result (no change) or exactly the two
legs were appended and exactly the two balance updates applied — never one
leg without the other. -/
theorem transfer_atomic_dual_entry (st : St) (td : TransferData)
    (ikey : Option String) (ref : String) :
    (∀ e, (processTransfer st td ikey ref).1 = .error e →
      (processTransfer st td ikey ref).2.1.ledger = st.ledger ∧
      (processTransfer st td ikey ref).2.1.accounts = st.accounts) ∧
    (∀ r, (processTransfer st td ikey ref).1 = .ok r →
      ((processTransfer st td ikey ref).2.1.ledger = st.ledger ∧
       (processTransfer st td ikey ref).2.1.accounts = st.accounts) ∨
      ∃ dt ct,
        (processTransfer st td ikey ref).2.1.ledger = st.ledger ++ [dt, ct] ∧
        dt.txn_type = .TRANSFER_OUT ∧ dt.account_id = td.from_account_id ∧
        dt.amount = td.amount ∧
        ct.txn_type = .TRANSFER_IN ∧ ct.account_id = td.to_account_id ∧
        ct.amount = td.amount ∧
        (processTransfer st td ikey ref).2.1.accounts =
          applyTriggerUpdate
            (applyTriggerUpdate st.accounts td.from_account_id (-td.amount))
            td.to_account_id td.amount) := by
  unfold processTransfer
  cases ikey with
  | none =>
      have hs := runTransferTry_atomic st td none ref (fun k hk => by cases hk)
      exact ⟨hs.1, fun r h => Or.inr (hs.2 r h)⟩
  | some k =>
      dsimp only
      by_cases hex : (checkKey st k).existsFlag = true
      · rw [if_pos hex]
        by_cases hxp : (checkKey st k).expired = true
        · rw [if_pos hxp]
          exact ⟨fun e h => ⟨rfl, rfl⟩, fun r h => by cases h⟩
        · rw [if_neg hxp]
          by_cases hpr : (checkKey st k).processed = true
          · rw [if_pos hpr]
            constructor
            · intro e h
              simp at h
            · intro r h
              exact Or.inl ⟨rfl, rfl⟩
          · rw [if_neg hpr]
            have hk0 : (findKey st.idem k).isSome = true := by
              rw [← checkKey_existsFlag]
              exact hex
            have hs := runTransferTry_atomic st td (some k) ref
              (fun k2 hk2 => by cases hk2; exact hk0)
            exact ⟨hs.1, fun r h => Or.inr (hs.2 r h)⟩
      · rw [if_neg hex]
        cases hc : createIdemKey st k td with
        | error ec =>
            exact ⟨fun e h => ⟨rfl, rfl⟩, fun r h => by cases h⟩
        | ok st1 =>
            obtain ⟨hl1, ha1, hk1⟩ := createIdemKey_ok_spec st k td st1 hc
            have hs := runTransferTry_atomic st1 td (some k) ref
              (fun k2 hk2 => by cases hk2; exact hk1)
            constructor
            · intro e h
              obtain ⟨hl, ha⟩ := hs.1 e h
              exact ⟨hl.trans hl1, ha.trans ha1⟩
            · intro r h
              obtain ⟨dt, ct, hl, f1, f2, f3, f4, f5, f6, ha⟩ := hs.2 r h
              refine Or.inr ⟨dt, ct, ?_, f1, f2, f3, f4, f5, f6, ?_⟩
              · rw [hl, hl1]
              · rw [ha, ha1]

/-- Witness for `transfer_atomic_dual_entry`: the concrete failing transfer
leaves ledger and balances untouched. -/
theorem transfer_atomic_dual_entry_witness :
    (processTransfer baseState transferReq none goodRef).2.1.ledger =
      baseState.ledger ∧
    (processTransfer baseState transferReq none goodRef).2.1.accounts =
      baseState.accounts :=
  (transfer_atomic_dual_entry baseState transferReq none goodRef).1
    "Validation failed: Reference must follow pattern REF[YYYYMMDD]-[6CHARS]"
    (by decide)

/-- Appending one entry adds its signed amount to its account's sum and
leaves other accounts' sums unchanged. -/
theorem ledgerSum_append (l : List Txn) (t : Txn) (aid : Nat) :
    ledgerSum (l ++ [t]) aid =
      if t.account_id = aid then ledgerSum l aid + signedAmt t
      else ledgerSum l aid := by
  unfold ledgerSum
  rw [List.foldl_append]
  rfl

/-- `balance_after` snapshots stay correct when an entry whose
`balance_after` is the new post-append sum is appended. -/
theorem balanceAfterOk_append (l : List Txn) (t : Txn)
    (hok : balanceAfterOk l = true)
    (hba : t.balance_after = some (ledgerSum (l ++ [t]) t.account_id)) :
    balanceAfterOk (l ++ [t]) = true := by
  unfold balanceAfterOk at hok ⊢
  rw [List.all_eq_true] at hok ⊢
  intro i hi
  rw [List.mem_range, List.length_append] at hi
  rcases Nat.lt_succ_iff_lt_or_eq.mp hi with hlt | heq
  · have hget : (l ++ [t]).get? i = l.get? i := List.get?_append hlt
    have htake : (l ++ [t]).take (i + 1) = l.take (i + 1) :=
      List.take_append_of_le_length (Nat.succ_le_of_lt hlt)
    have hok' := hok i (List.mem_range.mpr hlt)
    rw [hget, htake]
    exact hok'
  · subst heq
    have hget : (l ++ [t]).get? l.length = some t := by
      rw [List.get?_eq_getElem?]
      exact List.getElem?_concat_length l t
    have htake : (l ++ [t]).take (l.length + 1) = l ++ [t] :=
      List.take_all_of_le (by simp)
    rw [hget, htake]
    exact decide_eq_true hba

/-- A successful `INSERT` preserves the ledger-balance invariant: the
trigger shifts the account balance by exactly the entry's signed amount and
snapshots the new balance into `balance_after`. -/
theorem insertTxn_preserves_inv (st : St) (d : TxnData) (t : Txn) (st' : St)
    (h : insertTxn st d = .ok (t, st'))
    (hinv : ledgerInv st = true) : ledgerInv st' = true := by
  obtain ⟨hl, ha, hi, hn, haid, hty, ham, href, a, hfa, hba⟩ :=
    insertTxn_ok_spec _ _ _ _ h
  have hsgn : signedAmt t = signedAmount d.txn_type d.amount := by
    unfold signedAmt
    rw [hty, ham]
  unfold ledgerInv invAL at hinv ⊢
  rw [Bool.and_eq_true] at hinv
  obtain ⟨hbal, hok⟩ := hinv
  rw [hl, ha, Bool.and_eq_true]
  constructor
  · rw [List.all_eq_true] at hbal ⊢
    intro x hx
    unfold applyTriggerUpdate at hx
    rw [List.mem_map] at hx
    obtain ⟨a0, ha0, rfl⟩ := hx
    have hb0 := hbal a0 ha0
    rw [decide_eq_true_eq] at hb0
    by_cases hid : a0.account_id = d.account_id
    · rw [if_pos hid]
      dsimp only
      rw [decide_eq_true_eq, ledgerSum_append,
        if_pos (by rw [haid, hid]), hb0, hsgn]
    · rw [if_neg hid]
      rw [decide_eq_true_eq, ledgerSum_append,
        if_neg (fun hh => hid (by rw [haid] at hh; exact hh.symm))]
      exact hb0
  · apply balanceAfterOk_append _ _ hok
    rw [hba]
    congr 1
    rw [ledgerSum_append, if_pos rfl]
    have h2 : a.account_id = d.account_id := by
      have hp := List.find?_some (by unfold findAccount at hfa; exact hfa)
      rw [decide_eq_true_eq] at hp
      exact hp
    have h1 : a.current_balance = ledgerSum st.ledger a.account_id := by
      rw [List.all_eq_true] at hbal
      have hm := hbal a
        (List.mem_of_find?_eq_some (by unfold findAccount at hfa; exact hfa))
      rw [decide_eq_true_eq] at hm
      exact hm
    rw [h1, h2, haid, hsgn]

/-- A successful deposit is exactly one `insertTxn` on the entry state. -/
theorem processDeposit_ok_insert (st : St) (aid : Nat) (amt : Int)
    (cp ds : Option String) (ref : String) (r : SingleResult) (st' : St)
    (h : processDeposit st aid amt cp ds ref = .ok (r, st')) :
    ∃ d t, insertTxn st d = .ok (t, st') := by
  unfold processDeposit at h
  cases hf : findAccount st.accounts aid with
  | none => rw [hf] at h; cases h
  | some account =>
      rw [hf] at h
      dsimp only at h
      by_cases hact : isActive account = true
      · rw [if_neg (not_not_intro hact)] at h
        cases hc : canCredit account amt with
        | denied r2 => rw [hc] at h; cases h
        | allowed nb =>
            rw [hc] at h
            dsimp only at h
            cases hi : insertTxn st
                { account_id := aid, amount := amt, txn_type := .DEPOSIT
                  counterparty := cp, reference := ref, description := ds } with
            | error e => rw [hi] at h; cases h
            | ok p =>
                obtain ⟨t, st1⟩ := p
                rw [hi] at h
                dsimp only at h
                injection h with h
                injection h with h1 h2
                subst h2
                exact ⟨_, t, hi⟩
      · rw [if_pos hact] at h
        cases h

/-- A successful withdrawal is exactly one `insertTxn` on the entry state. -/
theorem processWithdrawal_ok_insert (st : St) (aid : Nat) (amt : Int)
    (cp ds : Option String) (ref : String) (r : SingleResult) (st' : St)
    (h : processWithdrawal st aid amt cp ds ref = .ok (r, st')) :
    ∃ d t, insertTxn st d = .ok (t, st') := by
  unfold processWithdrawal at h
  cases hf : findAccount st.accounts aid with
  | none => rw [hf] at h; cases h
  | some account =>
      rw [hf] at h
      dsimp only at h
      by_cases hact : isActive account = true
      · rw [if_neg (not_not_intro hact)] at h
        cases hc : canDebit account amt with
        | denied r2 => rw [hc] at h; cases h
        | allowed nb =>
            rw [hc] at h
            dsimp only at h
            cases hi : insertTxn st
                { account_id := aid, amount := amt, txn_type := .WITHDRAWAL
                  counterparty := cp, reference := ref, description := ds } with
            | error e => rw [hi] at h; cases h
            | ok p =>
                obtain ⟨t, st1⟩ := p
                rw [hi] at h
                dsimp only at h
                injection h with h
                injection h with h1 h2
                subst h2
                exact ⟨_, t, hi⟩
      · rw [if_pos hact] at h
        cases h

/-- The invariant only reads the two asset tables, so it transfers along
states that agree on them. -/
theorem ledgerInv_congr (s1 s2 : St) (hl : s2.ledger = s1.ledger)
    (ha : s2.accounts = s1.accounts) (h : ledgerInv s1 = true) :
    ledgerInv s2 = true := by
  unfold ledgerInv invAL at h ⊢
  rw [hl, ha]
  exact h

/-- The `try` wrapper preserves the ledger-balance invariant. -/
theorem runTransferTry_preserves_inv (st : St) (td : TransferData)
    (ikey : Option String) (ref : String)
    (hk : ∀ k, ikey = some k → (findKey st.idem k).isSome = true)
    (hinv : ledgerInv st = true) :
    ledgerInv (runTransferTry st td ikey ref).2.1 = true := by
  unfold runTransferTry
  dsimp only
  cases hb : (transferBody st td ref).1 with
  | error eb =>
      cases ikey with
      | some k => exact ledgerInv_congr st _ rfl rfl hinv
      | none => exact hinv
  | ok p =>
      obtain ⟨res, st2⟩ := p
      obtain ⟨hl2, ha2, hi2, _, _, _, _, _, _, d1, d2, st1, hins1, hins2⟩ :=
        transferBody_ok_spec st td ref res st2 hb
      have hinv2 : ledgerInv st2 = true :=
        insertTxn_preserves_inv st1 d2 _ st2 hins2
          (insertTxn_preserves_inv st d1 _ st1 hins1 hinv)
      cases ikey with
      | some k =>
          dsimp only
          have hk2 : (findKey st2.idem k).isSome = true := by
            rw [hi2]
            exact hk k rfl
          obtain ⟨st3, hu, hl3, ha3⟩ :=
            updateWithResult_ok_of_found st2 k res.debit_transaction.txn_id res hk2
          rw [hu]
          exact ledgerInv_congr st2 st3 hl3 ha3 hinv2
      | none =>
          dsimp only
          exact hinv2

/-- C8: every core operation — deposit, withdrawal, transfer — preserves
the invariant that each account's `current_balance` equals the signed sum
of its ledger entries (DEPOSIT/TRANSFER_IN added, WITHDRAWAL/TRANSFER_OUT
subtracted) and that every entry's `balance_after` records the balance
immediately after that entry was applied. -/
theorem core_ops_preserve_ledger_invariant (st : St) (op : CoreOp)
    (h : ledgerInv st = true) : ledgerInv (runOp st op) = true := by
  cases op with
  | deposit a amt cp ds ref =>
      unfold runOp runDeposit
      dsimp only
      cases hp : processDeposit st a amt cp ds ref with
      | error e => exact h
      | ok p =>
          obtain ⟨r, st'⟩ := p
          obtain ⟨d, t, hi⟩ := processDeposit_ok_insert st a amt cp ds ref r st' hp
          exact insertTxn_preserves_inv st d t st' hi h
  | withdraw a amt cp ds ref =>
      unfold runOp runWithdrawal
      dsimp only
      cases hp : processWithdrawal st a amt cp ds ref with
      | error e => exact h
      | ok p =>
          obtain ⟨r, st'⟩ := p
          obtain ⟨d, t, hi⟩ :=
            processWithdrawal_ok_insert st a amt cp ds ref r st' hp
          exact insertTxn_preserves_inv st d t st' hi h
  | transfer td ikey ref =>
      unfold runOp processTransfer
      dsimp only
      cases ikey with
      | none =>
          exact runTransferTry_preserves_inv st td none ref
            (fun k hk => by cases hk) h
      | some k =>
          dsimp only
          by_cases hex : (checkKey st k).existsFlag = true
          · rw [if_pos hex]
            by_cases hxp : (checkKey st k).expired = true
            · rw [if_pos hxp]
              exact h
            · rw [if_neg hxp]
              by_cases hpr : (checkKey st k).processed = true
              · rw [if_pos hpr]
                exact h
              · rw [if_neg hpr]
                have hk0 : (findKey st.idem k).isSome = true := by
                  rw [← checkKey_existsFlag]
                  exact hex
                exact runTransferTry_preserves_inv st td (some k) ref
                  (fun k2 hk2 => by cases hk2; exact hk0) h
          · rw [if_neg hex]
            cases hc : createIdemKey st k td with
            | error ec => exact h
            | ok st1 =>
                obtain ⟨hl1, ha1, hk1⟩ := createIdemKey_ok_spec st k td st1 hc
                exact runTransferTry_preserves_inv st1 td (some k) ref
                  (fun k2 hk2 => by cases hk2; exact hk1)
                  (ledgerInv_congr st st1 hl1 ha1 h)

/-- Witness for `core_ops_preserve_ledger_invariant`: on the zero-balance
empty-ledger state the invariant holds, and it still holds after a deposit
of 100 on account 1. -/
theorem core_ops_preserve_ledger_invariant_witness :
    ledgerInv zeroState = true ∧
    ledgerInv (runOp zeroState (.deposit 1 100 none none goodRef)) = true :=
  ⟨by decide,
   core_ops_preserve_ledger_invariant zeroState
     (.deposit 1 100 none none goodRef) (by decide)⟩

end Banking
